import Mathlib

/-!
Verification development for the Cisco switch management tool (`CsmBeta.py`).

The file gives a shallow embedding of the program's pure logic:

* Python string primitives used by the source (`str.split()`, `str.split('\n')`,
  `str.strip()`, `str.isdigit()`, `str.startswith("!")`, `file.readlines()`);
* the interface listing parser of `CiscoSwitchGUI.load_interfaces` together with
  the status-to-icon mapping of `CiscoSwitchGUI.set_interface_icon`;
* the VLAN listing parser of `CiscoSwitchGUI.load_vlans`;
* the configuration-push entry point of `InterfaceConfigDialog.apply_configuration`;
* `ConfigManager.backup_config` and `ConfigManager.restore_config`, with the
  transport and the snapshot filesystem modelled as explicit function parameters.

Theorems about these definitions then settle the specification claims.
-/

/-- Python whitespace characters, as recognised by `str.split()` / `str.strip()`
(space, tab, newline, carriage return, vertical tab, form feed). -/
def isPySpace (c : Char) : Bool :=
  c = ' ' || c = '\t' || c = '\n' || c = '\r' || c = Char.ofNat 11 || c = Char.ofNat 12

/-- Character-level body of Python `str.strip()`: drop whitespace from the front,
then from the back. -/
def pyStripChars (cs : List Char) : List Char :=
  ((cs.dropWhile isPySpace).reverse.dropWhile isPySpace).reverse

/-- Python `str.strip()` with no arguments. -/
def pyStrip (s : String) : String :=
  String.mk (pyStripChars s.data)

/-- Character-level body of Python `str.split('\n')`: every occurrence of a
newline separates two (possibly empty) chunks. -/
def splitNlChars : List Char → List (List Char)
  | [] => [[]]
  | c :: rest =>
    if c = '\n' then [] :: splitNlChars rest
    else
      match splitNlChars rest with
      | [] => [[c]]
      | l :: ls => (c :: l) :: ls

/-- Python `text.split('\n')` on a string. -/
def pyLines (s : String) : List String :=
  (splitNlChars s.data).map fun l => String.mk l

/-- Accumulator worker for Python `str.split()` (split on runs of whitespace,
discarding empty tokens). -/
def pySplitAux : List Char → List Char → List (List Char)
  | [], acc => if acc = [] then [] else [acc.reverse]
  | c :: rest, acc =>
    if isPySpace c then
      if acc = [] then pySplitAux rest []
      else acc.reverse :: pySplitAux rest []
    else pySplitAux rest (c :: acc)

/-- Python `str.split()` with no arguments. -/
def pySplit (s : String) : List String :=
  (pySplitAux s.data []).map fun l => String.mk l

/-- Python `str.isdigit()` for the ASCII digits: non-empty and all characters
are digits. -/
def pyIsdigit (s : String) : Bool :=
  !s.data.isEmpty && s.data.all Char.isDigit

/-- Numeric value of an all-digit token (the integer Python's `int` would read). -/
def digitsVal (s : String) : Nat :=
  s.data.foldl (fun n c => 10 * n + (c.toNat - 48)) 0

/-- Operational status of an interface as rendered by the GUI's icons:
`Up` is the green icon, `Down` the red icon, `AdminDown` the black icon and
`Unknown` is "no icon set". -/
inductive OperStatus : Type where
  | Up : OperStatus
  | Down : OperStatus
  | AdminDown : OperStatus
  | Unknown : OperStatus
  deriving DecidableEq

/-- One row of the interface listing. -/
structure InterfaceRecord : Type where
  name : String
  operStatus : OperStatus
  deriving DecidableEq

/-- One row of the VLAN listing. -/
structure VlanRecord : Type where
  id : Nat
  name : String
  deriving DecidableEq

/-- Embedding of `CiscoSwitchGUI.set_interface_icon`: the status string selects
green for "up", red for "down", black for "administratively down", and leaves
the item without an icon otherwise. -/
def set_interface_icon (status : String) : OperStatus :=
  if status = "up" then OperStatus.Up
  else if status = "down" then OperStatus.Down
  else if status = "administratively down" then OperStatus.AdminDown
  else OperStatus.Unknown

/-- Result of running one of the Python parsing loops: either the produced
records, or the `IndexError` a out-of-range column access raises. -/
inductive PResult (α : Type) : Type where
  | ok : α → PResult α
  | indexError : PResult α
  deriving DecidableEq

/-- Boolean success test on a `PResult`. -/
def PResult.isOk {α : Type} : PResult α → Bool
  | PResult.ok _ => true
  | PResult.indexError => false

/-- Prepend a record to a parse result, propagating an error. -/
def PResult.consR {α : Type} (x : α) : PResult (List α) → PResult (List α)
  | PResult.ok xs => PResult.ok (x :: xs)
  | PResult.indexError => PResult.indexError

/-- Loop body of `CiscoSwitchGUI.load_interfaces` over the post-header lines:
`columns = line.split()`; an empty `columns` is skipped; otherwise
`columns[0]` is the name and `columns[4]` the status (an out-of-range
access raises `IndexError`). -/
def ifaceGo : List String → PResult (List InterfaceRecord)
  | [] => PResult.ok []
  | line :: rest =>
    match pySplit line with
    | [] => ifaceGo rest
    | c0 :: cs =>
      if h : 3 < cs.length then
        PResult.consR (InterfaceRecord.mk c0 (set_interface_icon (cs.get ⟨3, h⟩)))
          (ifaceGo rest)
      else PResult.indexError

/-- Embedding of the parsing part of `CiscoSwitchGUI.load_interfaces`:
`output.split('\n')[1:]` then the per-line loop. -/
def parseInterfaceBrief (raw : String) : PResult (List InterfaceRecord) :=
  ifaceGo ((pyLines raw).drop 1)

/-- Loop body of `CiscoSwitchGUI.load_vlans` over the post-header lines:
a line is used only when `columns` is non-empty and `columns[0].isdigit()`;
then `columns[0]` is the id and `columns[1]` the name (an out-of-range access
raises `IndexError`). -/
def vlanGo : List String → PResult (List VlanRecord)
  | [] => PResult.ok []
  | line :: rest =>
    match pySplit line with
    | [] => vlanGo rest
    | c0 :: cs =>
      if pyIsdigit c0 then
        if h : 0 < cs.length then
          PResult.consR (VlanRecord.mk (digitsVal c0) (cs.get ⟨0, h⟩)) (vlanGo rest)
        else PResult.indexError
      else vlanGo rest

/-- Embedding of the parsing part of `CiscoSwitchGUI.load_vlans`. -/
def parseVlanBrief (raw : String) : PResult (List VlanRecord) :=
  vlanGo ((pyLines raw).drop 1)

/-- Sample "interface brief" output from the specification's section 8. -/
def sampleIfaceText : String :=
  "Interface  IP-Address  OK?  Method  Status  Protocol\nGi0/1  unassigned  YES  NVRAM  up  up\nGi0/2  unassigned  YES  NVRAM  administratively down  down\n"

/-- Sample "vlan brief" output from the specification's section 8. -/
def sampleVlanText : String :=
  "VLAN Name  Status  Ports\n1  default  active  Gi0/3\n10  Servers  active  Gi0/4\n"

/-- Embedding of `InterfaceConfigDialog.apply_configuration`:
`commands = self.config_area.toPlainText().strip().split('\n')`; when `commands`
is non-empty (as a Python truth test on the list) the batch
`["interface {name}"] + commands` is sent via `send_config_set`, otherwise a
warning is shown and nothing is sent.  `some batch` means the device was
contacted with `batch`; `none` means no transport call happened. -/
def apply_configuration (iface bodyText : String) : Option (List String) :=
  let commands := pyLines (pyStrip bodyText)
  if commands.isEmpty then none
  else some (("interface " ++ iface) :: commands)

/-- Wall-clock instant with the fields `datetime.datetime.now()` exposes to the
format string `"%Y%m%d_%H%M%S"`; the model has no sub-second field because the
format string uses none. -/
structure PyDateTime : Type where
  year : Nat
  month : Nat
  day : Nat
  hour : Nat
  minute : Nat
  second : Nat
  deriving DecidableEq

/-- Zero-padded two-digit decimal field of `strftime`. -/
def pad2 (n : Nat) : String :=
  if n < 10 then "0" ++ toString n else toString n

/-- Zero-padded four-digit decimal field of `strftime` (`%Y`). -/
def pad4 (n : Nat) : String :=
  if n < 10 then "000" ++ toString n
  else if n < 100 then "00" ++ toString n
  else if n < 1000 then "0" ++ toString n
  else toString n

/-- Embedding of `datetime.datetime.now().strftime("%Y%m%d_%H%M%S")`. -/
def strftimeBackup (t : PyDateTime) : String :=
  pad4 t.year ++ pad2 t.month ++ pad2 t.day ++ "_" ++
    pad2 t.hour ++ pad2 t.minute ++ pad2 t.second

/-- Observable effect of `ConfigManager.backup_config`: the value returned to
the caller, and the name/content pair handed to the filesystem write. -/
structure BackupEffect : Type where
  returned : String
  writeName : String
  writeContent : String
  deriving DecidableEq

/-- Embedding of `ConfigManager.backup_config`: captures
`connection.send_command("show running-config")` (the transport is the `send`
parameter), stamps it with the clock, writes the text verbatim under
`backup_{ip}_{timestamp}.txt` and returns that filename. -/
def backup_config (send : String → String) (now : PyDateTime) (ip : String) :
    BackupEffect :=
  let config := send ("show running-config")
  let timestamp := strftimeBackup now
  let filename := "backup_" ++ ip ++ "_" ++ timestamp ++ ".txt"
  BackupEffect.mk filename filename config

/-- Worker for Python `file.readlines()` on the chunks produced by splitting at
newlines: every chunk but the last gets its terminating newline back, and a
final empty chunk (text ending in a newline) yields no extra line. -/
def readlinesChunks : List String → List String
  | [] => []
  | [last] => if last = "" then [] else [last]
  | l :: rest => (l ++ "\n") :: readlinesChunks rest

/-- Python `file.readlines()` applied to a file holding `s`. -/
def readlines (s : String) : List String :=
  readlinesChunks (pyLines s)

/-- Python `line.startswith("!")`. -/
def startswithBang (s : String) : Bool :=
  match s.data with
  | [] => false
  | c :: _ => c = '!'

/-- Errors surfaced by the restore path: the snapshot file is missing
(`FileNotFoundError` from `open`), or the transport/config push failed with the
given message. -/
inductive ExecError : Type where
  | notFound : ExecError
  | transportErr : String → ExecError
  deriving DecidableEq

/-- The list-comprehension of `ConfigManager.restore_config`:
`[line.strip() for line in config_lines if not line.startswith("!")]` applied
to the `readlines()` of the stored snapshot text. -/
def restoreBatch (content : String) : List String :=
  ((readlines content).filter fun l => !(startswithBang l)).map pyStrip

/-- Embedding of `ConfigManager.restore_config`.  The snapshot filesystem is
the `fs` parameter (`fs name = none` makes `open` raise `FileNotFoundError`);
the transport's `send_config_set` is the `push` parameter.  The second
component of the result is the list of batches actually sent to the device,
in order. -/
def restore_config (fs : String → Option String)
    (push : List String → Except ExecError String) (filename : String) :
    Except ExecError String × List (List String) :=
  match fs filename with
  | none => (Except.error ExecError.notFound, [])
  | some content =>
    let batch := restoreBatch content
    (push batch, [batch])

/-- The device-side lines of a stored text: the newline-separated chunks, a
final empty chunk (from a trailing newline) not counting as a line.  This is
the claim-side reading of "the original running-config lines". -/
def rawConfigChunks : List String → List String
  | [] => []
  | [last] => if last = "" then [] else [last]
  | l :: rest => l :: rawConfigChunks rest

/-- The lines of a configuration text, claim-side reading. -/
def rawConfigLines (t : String) : List String :=
  rawConfigChunks (pyLines t)

/-- Prepending a record keeps the success bit of the remaining parse. -/
theorem consR_isOk {α : Type} (x : α) (r : PResult (List α)) :
    (PResult.consR x r).isOk = r.isOk := by
  cases r <;> rfl

/-- Inversion for `PResult.consR` against a successful result. -/
theorem consR_eq_ok {α : Type} (x : α) (r : PResult (List α)) (ys : List α) :
    PResult.consR x r = PResult.ok ys ↔ ∃ xs, r = PResult.ok xs ∧ ys = x :: xs := by
  cases r with
  | ok xs => simp [PResult.consR, eq_comm]
  | indexError => simp [PResult.consR]

/-- The interface loop succeeds exactly when every line it sees either has no
tokens at all or has at least five tokens. -/
theorem ifaceGo_ok_iff (ls : List String) :
    (ifaceGo ls).isOk = true ↔
      ∀ l ∈ ls, pySplit l = [] ∨ 5 ≤ (pySplit l).length := by
  induction ls with
  | nil => simp [ifaceGo, PResult.isOk]
  | cons l rest ih =>
    rcases hs : pySplit l with _ | ⟨c0, cs⟩
    · simp only [ifaceGo, hs, List.mem_cons, forall_eq_or_imp]
      rw [ih]
      simp [hs]
    · by_cases h : 3 < cs.length
      · simp only [ifaceGo, hs, dif_pos h, consR_isOk, List.mem_cons, forall_eq_or_imp]
        rw [ih]
        have : 5 ≤ (pySplit l).length := by rw [hs]; simp; omega
        simp [hs, this]
        intro _
        omega
      · simp only [ifaceGo, hs, dif_neg h, List.mem_cons, forall_eq_or_imp]
        have h5 : ¬ (pySplit l = [] ∨ 5 ≤ (pySplit l).length) := by
          rw [hs]; simp; omega
        simp [PResult.isOk, h5]
        intro hc
        exact absurd hc (by omega)

/-- Skipping behaviour of the interface loop: a line whose `split()` is empty
contributes nothing. -/
theorem ifaceGo_skip (l : String) (ls : List String) (h : pySplit l = []) :
    ifaceGo (l :: ls) = ifaceGo ls := by
  simp only [ifaceGo, h]

/-- Record a VLAN summary line produces according to the specification's words:
a line qualifies only when its first token is all digits; then the id is the
integer value of that token and the name is the second token. -/
def vlanSpecOfLine (l : String) : Option VlanRecord :=
  match pySplit l with
  | [] => none
  | c0 :: cs =>
    if pyIsdigit c0 then some (VlanRecord.mk (digitsVal c0) (cs.headD (""))) else none

/-- Records the specification says `parseVlanBrief` returns: the qualifying
post-header lines, in order. -/
def vlanSpecRecords (raw : String) : List VlanRecord :=
  ((pyLines raw).drop 1).filterMap vlanSpecOfLine

/-- A line is safe for the VLAN loop when it is not a qualifying line that
lacks a second token. -/
def vlanLineSafe (l : String) : Bool :=
  match pySplit l with
  | [] => true
  | c0 :: cs => !(pyIsdigit c0) || !cs.isEmpty

/-- A line on which the VLAN loop raises `IndexError`: its only whitespace
token consists entirely of digits. -/
def vlanLineBad (l : String) : Bool :=
  match pySplit l with
  | [c0] => pyIsdigit c0
  | _ => false

/-- On safe lines the VLAN loop returns exactly the records described by the
specification. -/
theorem vlanGo_spec (ls : List String) (h : ∀ l ∈ ls, vlanLineSafe l = true) :
    vlanGo ls = PResult.ok (ls.filterMap vlanSpecOfLine) := by
  induction ls with
  | nil => rfl
  | cons l rest ih =>
    have hl : vlanLineSafe l = true := h l (by simp)
    have hrest : ∀ x ∈ rest, vlanLineSafe x = true := fun x hx => h x (by simp [hx])
    rcases hs : pySplit l with _ | ⟨c0, cs⟩
    · simp only [vlanGo, hs, List.filterMap_cons, vlanSpecOfLine, hs, ih hrest]
    · by_cases hd : pyIsdigit c0 = true
      · have hcs : cs ≠ [] := by
          have := hl
          simp only [vlanLineSafe, hs, hd, Bool.not_true, Bool.false_or,
            Bool.not_eq_true'] at this
          intro hnil
          rw [hnil] at this
          simp at this
        have hlen : 0 < cs.length := List.length_pos.mpr hcs
        have hget : cs.get ⟨0, hlen⟩ = cs.headD ("") := by
          cases cs with
          | nil => exact absurd rfl hcs
          | cons a as => rfl
        simp only [vlanGo, hs, hd, if_true, dif_pos hlen, ih hrest, PResult.consR,
          List.filterMap_cons, vlanSpecOfLine, hget]
      · simp only [vlanGo, hs, hd, ih hrest, List.filterMap_cons, vlanSpecOfLine]
        simp [hd]

/-- First token of a line that produces an interface record (the interface
name), when the line produces one. -/
def ifaceNameOfLine (l : String) : Option String :=
  match pySplit l with
  | [] => none
  | c0 :: cs => if 3 < cs.length then some c0 else none

/-- Names of the interface records a successfully parsed listing holds, read
off the raw text directly. -/
def ifaceNamesOf (raw : String) : List String :=
  ((pyLines raw).drop 1).filterMap ifaceNameOfLine

/-- Integer value of the first token of a line that produces a VLAN record,
when the line produces one. -/
def vlanIdOfLine (l : String) : Option Nat :=
  match pySplit l with
  | [] => none
  | c0 :: cs => if pyIsdigit c0 && !cs.isEmpty then some (digitsVal c0) else none

/-- Ids of the VLAN records a successfully parsed listing holds, read off the
raw text directly. -/
def vlanIdsOf (raw : String) : List Nat :=
  ((pyLines raw).drop 1).filterMap vlanIdOfLine

/-- On success, the names in the interface listing are exactly the first
tokens of the producing lines, in order. -/
theorem ifaceGo_names (ls : List String) (rs : List InterfaceRecord)
    (h : ifaceGo ls = PResult.ok rs) :
    rs.map InterfaceRecord.name = ls.filterMap ifaceNameOfLine := by
  induction ls generalizing rs with
  | nil =>
    simp only [ifaceGo] at h
    cases h
    rfl
  | cons l rest ih =>
    rcases hs : pySplit l with _ | ⟨c0, cs⟩
    · rw [ifaceGo_skip l rest hs] at h
      simp only [List.filterMap_cons, ifaceNameOfLine, hs, ih rs h]
    · by_cases hlen : 3 < cs.length
      · simp only [ifaceGo, hs, dif_pos hlen] at h
        rcases (consR_eq_ok _ _ _).mp h with ⟨xs, hxs, rfl⟩
        simp only [List.map_cons, ih xs hxs, List.filterMap_cons, ifaceNameOfLine, hs,
          if_pos hlen]
      · simp only [ifaceGo, hs, dif_neg hlen] at h
        cases h

/-- On success, the ids in the VLAN listing are exactly the integer values of
the first tokens of the producing lines, in order. -/
theorem vlanGo_ids (ls : List String) (vs : List VlanRecord)
    (h : vlanGo ls = PResult.ok vs) :
    vs.map VlanRecord.id = ls.filterMap vlanIdOfLine := by
  induction ls generalizing vs with
  | nil =>
    simp only [vlanGo] at h
    cases h
    rfl
  | cons l rest ih =>
    rcases hs : pySplit l with _ | ⟨c0, cs⟩
    · simp only [vlanGo, hs] at h
      simp only [List.filterMap_cons, vlanIdOfLine, hs, ih vs h]
    · by_cases hd : pyIsdigit c0 = true
      · by_cases hlen : 0 < cs.length
        · simp only [vlanGo, hs, hd, if_true, dif_pos hlen] at h
          rcases (consR_eq_ok _ _ _).mp h with ⟨xs, hxs, rfl⟩
          have hne : cs.isEmpty = false := by
            cases cs with
            | nil => simp at hlen
            | cons a as => rfl
          simp only [List.map_cons, ih xs hxs, List.filterMap_cons, vlanIdOfLine, hs,
            hd, hne]
          simp
        · simp only [vlanGo, hs, hd, if_true, dif_neg hlen] at h
          cases h
      · simp only [vlanGo, hs, hd] at h
        have : vlanIdOfLine l = none := by
          simp [vlanIdOfLine, hs, hd]
        simp only [List.filterMap_cons, this, ih vs (by simpa using h)]

/-- Appending the characters of two strings. -/
theorem data_of_append (a b : String) : (a ++ b).data = a.data ++ b.data := by
  cases a
  cases b
  rfl

/-- Stripping ignores a terminating newline. -/
theorem pyStripChars_append_nl (d : List Char) :
    pyStripChars (d ++ ['\n']) = pyStripChars d := by
  unfold pyStripChars
  rw [List.dropWhile_append]
  by_cases h : (d.dropWhile isPySpace).isEmpty
  · have h' : d.dropWhile isPySpace = [] := by simpa using h
    rw [if_pos h, h']
    rfl
  · rw [if_neg h]
    have : (d.dropWhile isPySpace ++ ['\n']).reverse
        = '\n' :: (d.dropWhile isPySpace).reverse := by
      simp
    rw [this, List.dropWhile_cons]
    have hws : isPySpace '\n' = true := by decide
    rw [if_pos hws]

/-- Python `strip()` ignores a terminating newline. -/
theorem pyStrip_append_nl (l : String) : pyStrip (l ++ "\n") = pyStrip l := by
  have hdata : (l ++ "\n").data = l.data ++ ['\n'] := by
    rw [data_of_append]
  unfold pyStrip
  rw [hdata, pyStripChars_append_nl]

/-- The comment test ignores a terminating newline. -/
theorem startswithBang_append_nl (l : String) :
    startswithBang (l ++ "\n") = startswithBang l := by
  have hdata : (l ++ "\n").data = l.data ++ ['\n'] := by
    rw [data_of_append]
  unfold startswithBang
  rw [hdata]
  cases l.data with
  | nil => decide
  | cons c cs => rfl

/-- The restore filter-and-strip pipeline gives the same batch whether the
lines carry their terminating newline (as `readlines()` yields them) or not
(the device-side reading of the snapshot's lines). -/
theorem restoreChunks_eq (parts : List String) :
    ((readlinesChunks parts).filter fun l => !(startswithBang l)).map pyStrip
      = ((rawConfigChunks parts).filter fun l => !(startswithBang l)).map pyStrip := by
  induction parts with
  | nil => rfl
  | cons l rest ih =>
    cases rest with
    | nil => rfl
    | cons m ms =>
      show ((((l ++ "\n") :: readlinesChunks (m :: ms)).filter
            fun x => !(startswithBang x)).map pyStrip)
          = (((l :: rawConfigChunks (m :: ms)).filter
            fun x => !(startswithBang x)).map pyStrip)
      rw [List.filter_cons, List.filter_cons, startswithBang_append_nl]
      by_cases hb : startswithBang l = true
      · rw [hb]
        simpa using ih
      · rw [Bool.not_eq_true] at hb
        rw [hb]
        simp only [Bool.not_false, if_true, List.map_cons, pyStrip_append_nl]
        rw [ih]

/-- The batch `restore_config` replays is the stripped form of the stored
text's non-comment lines, in order. -/
theorem restoreBatch_eq_rawLines (content : String) :
    restoreBatch content
      = ((rawConfigLines content).filter fun l => !(startswithBang l)).map pyStrip := by
  unfold restoreBatch readlines rawConfigLines
  exact restoreChunks_eq (pyLines content)

/-- If some line's only token is all digits, the VLAN loop raises
`IndexError`. -/
theorem vlanGo_bad (ls : List String) (h : ls.any vlanLineBad = true) :
    vlanGo ls = PResult.indexError := by
  induction ls with
  | nil => simp at h
  | cons l rest ih =>
    rcases hs : pySplit l with _ | ⟨c0, cs⟩
    · have hl : vlanLineBad l = false := by simp [vlanLineBad, hs]
      have : rest.any vlanLineBad = true := by
        rcases List.any_eq_true.mp h with ⟨x, hx, hbad⟩
        rcases List.mem_cons.mp hx with rfl | hx
        · exact absurd hbad (by simp [hl])
        · exact List.any_eq_true.mpr ⟨x, hx, hbad⟩
      simp only [vlanGo, hs, ih this]
    · by_cases hd : pyIsdigit c0 = true
      · cases cs with
        | nil => simp only [vlanGo, hs, hd, if_true]; rw [dif_neg (by simp)]
        | cons a as =>
          have hl : vlanLineBad l = false := by simp [vlanLineBad, hs]
          have : rest.any vlanLineBad = true := by
            rcases List.any_eq_true.mp h with ⟨x, hx, hbad⟩
            rcases List.mem_cons.mp hx with rfl | hx
            · exact absurd hbad (by simp [hl])
            · exact List.any_eq_true.mpr ⟨x, hx, hbad⟩
          simp only [vlanGo, hs, hd, if_true, dif_pos (by simp : 0 < (a :: as).length),
            ih this, PResult.consR]
      · have hl : vlanLineBad l = false := by
          cases cs with
          | nil => simp [vlanLineBad, hs]; simpa using hd
          | cons a as => simp [vlanLineBad, hs]
        have : rest.any vlanLineBad = true := by
          rcases List.any_eq_true.mp h with ⟨x, hx, hbad⟩
          rcases List.mem_cons.mp hx with rfl | hx
          · exact absurd hbad (by simp [hl])
          · exact List.any_eq_true.mpr ⟨x, hx, hbad⟩
        simp only [vlanGo, hs, hd, ih this]
        simp [hd]

/-- Python `split('\n')` never yields the empty list: even the empty string
splits into one empty chunk. -/
theorem splitNlChars_ne_nil (cs : List Char) : splitNlChars cs ≠ [] := by
  induction cs with
  | nil => simp [splitNlChars]
  | cons c rest ih =>
    simp only [splitNlChars]
    by_cases hc : c = '\n'
    · simp [hc]
    · rw [if_neg hc]
      rcases h : splitNlChars rest with _ | ⟨l, ls⟩
      · simp
      · simp

/-- The apply-configuration handler always takes the send branch: the truth
test on `text.strip().split('\n')` can never see an empty list. -/
theorem apply_configuration_isSome (iface bodyText : String) :
    (apply_configuration iface bodyText).isSome = true := by
  have h := splitNlChars_ne_nil (pyStrip bodyText).data
  simp only [apply_configuration]
  rcases hp : pyLines (pyStrip bodyText) with _ | ⟨a, as⟩
  · have : splitNlChars (pyStrip bodyText).data = [] := by
      have := hp
      simp only [pyLines, List.map_eq_nil_iff] at this
      exact this
    exact absurd this h
  · simp [hp]

/-- A missing snapshot makes `restore_config` fail with `notFound` and send
no batch at all. -/
theorem restore_config_missing (fs : String → Option String)
    (push : List String → Except ExecError String) (filename : String)
    (h : fs filename = none) :
    restore_config fs push filename = (Except.error ExecError.notFound, []) := by
  unfold restore_config
  rw [h]

/-- A present snapshot makes `restore_config` send exactly its filtered,
stripped batch, once, and return whatever the push returned. -/
theorem restore_config_found (fs : String → Option String)
    (push : List String → Except ExecError String) (filename content : String)
    (h : fs filename = some content) :
    restore_config fs push filename
      = (push (restoreBatch content), [restoreBatch content]) := by
  unfold restore_config
  rw [h]

/-- Claim C1 (divergence witness): on the section 8 sample input the code maps
Gi0/1 to Up, but Gi0/2 to Unknown (no icon), not AdminDown: `columns[4]` of the
"administratively down" row is the single token "administratively", and the
code's own `"administratively down"` branch — shown here to map to AdminDown —
is unreachable because `split()` tokens never contain a space. -/
theorem claim1_status_mapping_eval :
    parseInterfaceBrief sampleIfaceText
        = PResult.ok [InterfaceRecord.mk ("Gi0/1") OperStatus.Up,
            InterfaceRecord.mk ("Gi0/2") OperStatus.Unknown]
    ∧ set_interface_icon ("administratively") = OperStatus.Unknown
    ∧ set_interface_icon ("administratively down") = OperStatus.AdminDown := by
  exact ⟨by decide, by decide, by decide⟩

/-- Claim C2 counterexample: a non-empty post-header line with fewer than five
tokens is not skipped silently — the parse raises an index error. -/
theorem claim2_counterexample :
    parseInterfaceBrief ("Interface Status\nGi0/1 up\n") = PResult.indexError := by
  decide

/-- Claim C2 as amended: lines with no tokens are skipped silently, and the
parse returns a result exactly when every post-header line either has no
tokens or has at least five; a line with one to four tokens raises an index
error instead of being skipped. -/
theorem claim2_amended :
    (∀ l ls, pySplit l = [] → ifaceGo (l :: ls) = ifaceGo ls)
    ∧ ∀ raw, (parseInterfaceBrief raw).isOk = true ↔
        ∀ l ∈ (pyLines raw).drop 1, pySplit l = [] ∨ 5 ≤ (pySplit l).length := by
  exact ⟨fun l ls h => ifaceGo_skip l ls h, fun raw => ifaceGo_ok_iff _⟩

/-- Claim C2 witness: the amended statement evaluated at concrete inputs —
a whitespace-only line is skipped, and the section 8 sample parses. -/
theorem claim2_witness :
    ifaceGo [" ", "Gi0/1 a b c up"] = ifaceGo ["Gi0/1 a b c up"]
    ∧ (parseInterfaceBrief sampleIfaceText).isOk = true := by
  constructor
  · exact claim2_amended.1 (" ") (["Gi0/1 a b c up"]) (by decide)
  · exact (claim2_amended.2 sampleIfaceText).mpr (by decide)

/-- Claim C3 (divergence witness): with empty or whitespace-only command text
the handler still contacts the device, sending the scope line plus one empty
command — `"".strip().split('\n')` is `[""]`, which is truthy, so the
empty-input warning branch is unreachable (third conjunct). -/
theorem claim3_empty_batch_sent :
    apply_configuration ("Gi0/1") ("") = some ["interface Gi0/1", ""]
    ∧ apply_configuration ("Gi0/1") ("  \n ") = some ["interface Gi0/1", ""]
    ∧ ∀ iface bodyText, (apply_configuration iface bodyText).isSome = true :=
  ⟨by decide, by decide, fun iface bodyText => apply_configuration_isSome iface bodyText⟩

/-- Claim C4: on any vlan-brief text whose qualifying lines (first token all
digits) carry a second token, the parser returns exactly the qualifying
post-header lines, in order, with id the integer value of the first token and
name the second token; non-qualifying lines are skipped, not errored. -/
theorem claim4_vlan_parse (raw : String)
    (h : ∀ l ∈ (pyLines raw).drop 1, vlanLineSafe l = true) :
    parseVlanBrief raw = PResult.ok (vlanSpecRecords raw) := by
  unfold parseVlanBrief vlanSpecRecords
  exact vlanGo_spec _ h

/-- Claim C4 witness: the section 8 sample yields VLANs 1 "default" and
10 "Servers". -/
theorem claim4_witness :
    parseVlanBrief sampleVlanText
      = PResult.ok [VlanRecord.mk 1 ("default"), VlanRecord.mk 10 ("Servers")] := by
  rw [claim4_vlan_parse sampleVlanText (by decide)]
  decide

/-- Claim C5 counterexample: restoring the backup of a text with an indented
configuration line replays a batch that differs from the original lines minus
comments — the indented line loses its leading whitespace. -/
theorem claim5_counterexample :
    (restore_config
        (fun n => if n = (backup_config (fun _ => " shutdown\nend\n")
              (PyDateTime.mk 2024 1 2 3 4 5) ("10.0.0.1")).writeName
          then some (backup_config (fun _ => " shutdown\nend\n")
              (PyDateTime.mk 2024 1 2 3 4 5) ("10.0.0.1")).writeContent
          else none)
        (fun _ => Except.ok ("applied"))
        (backup_config (fun _ => " shutdown\nend\n")
            (PyDateTime.mk 2024 1 2 3 4 5) ("10.0.0.1")).returned).snd
      ≠ [(rawConfigLines (" shutdown\nend\n")).filter fun l => !(startswithBang l)] := by
  decide

/-- Claim C5 as amended: restoring the snapshot that backup persisted for a
configuration text sends exactly one batch, with no scoping command, equal to
the whitespace-stripped forms of the original lines that do not begin with
"!", in original order. -/
theorem claim5_round_trip (t ip : String) (now : PyDateTime)
    (push : List String → Except ExecError String) :
    (restore_config
        (fun n => if n = (backup_config (fun _ => t) now ip).writeName
          then some (backup_config (fun _ => t) now ip).writeContent else none)
        push
        (backup_config (fun _ => t) now ip).returned).snd
      = [((rawConfigLines t).filter fun l => !(startswithBang l)).map pyStrip] := by
  have h : (fun n => if n = (backup_config (fun _ => t) now ip).writeName
        then some (backup_config (fun _ => t) now ip).writeContent else none)
      ((backup_config (fun _ => t) now ip).returned) = some t := if_pos rfl
  rw [restore_config_found _ push _ t h, restoreBatch_eq_rawLines]

/-- Claim C6: restore of a missing snapshot fails with notFound and performs
zero transport calls; when the push itself fails, its error is propagated and
the single attempted batch is the only transport call — no rollback, no
retry. -/
theorem claim6_restore_errors :
    (∀ (fs : String → Option String) (push : List String → Except ExecError String)
        (filename : String), fs filename = none →
        restore_config fs push filename = (Except.error ExecError.notFound, []))
    ∧ ∀ (fs : String → Option String) (push : List String → Except ExecError String)
        (filename content : String) (e : ExecError), fs filename = some content →
        push (restoreBatch content) = Except.error e →
        restore_config fs push filename = (Except.error e, [restoreBatch content]) := by
  constructor
  · exact fun fs push filename h => restore_config_missing fs push filename h
  · intro fs push filename content e hfs hpush
    rw [restore_config_found fs push filename content hfs, hpush]

/-- Claim C6 witness: both error paths evaluated on concrete collaborators. -/
theorem claim6_witness :
    restore_config (fun _ => none) (fun _ => Except.ok ("")) ("snap")
        = (Except.error ExecError.notFound, [])
    ∧ restore_config (fun _ => some ("a\n"))
        (fun _ => Except.error (ExecError.transportErr ("io"))) ("snap2")
        = (Except.error (ExecError.transportErr ("io")), [["a"]]) := by
  constructor
  · exact claim6_restore_errors.1 (fun _ => none) (fun _ => Except.ok ("")) ("snap") rfl
  · have hb : restoreBatch ("a\n") = ["a"] := by decide
    have h := claim6_restore_errors.2 (fun _ => some ("a\n"))
      (fun _ => Except.error (ExecError.transportErr ("io"))) ("snap2") ("a\n")
      (ExecError.transportErr ("io")) rfl rfl
    rw [hb] at h
    exact h

/-- Claim C7 counterexample: the persisted name is not `backup_{address}_{timestamp}`
— the code appends a ".txt" suffix. -/
theorem claim7_counterexample :
    (backup_config (fun _ => "cfg") (PyDateTime.mk 2024 1 2 3 4 5) ("10.0.0.1")).returned
      ≠ "backup_" ++ "10.0.0.1" ++ "_" ++ strftimeBackup (PyDateTime.mk 2024 1 2 3 4 5) := by
  decide

/-- Claim C7 as amended: backup captures the raw output of
`show running-config` verbatim, persists it under the deterministic name
`backup_{address}_{timestamp}.txt` (timestamp at second resolution), and
returns that same filename. -/
theorem claim7_backup_effect (send : String → String) (now : PyDateTime) (ip : String) :
    (backup_config send now ip).returned
        = "backup_" ++ ip ++ "_" ++ strftimeBackup now ++ ".txt"
    ∧ (backup_config send now ip).writeName = (backup_config send now ip).returned
    ∧ (backup_config send now ip).writeContent = send ("show running-config") :=
  ⟨rfl, rfl, rfl⟩

/-- Claim C8 counterexample: a listing produced by one parse call can repeat an
interface name — the parser performs no deduplication and no uniqueness
check. -/
theorem claim8_counterexample :
    parseInterfaceBrief ("Interface Status\nGi0/1 a b c up\nGi0/1 a b c up\n")
        = PResult.ok [InterfaceRecord.mk ("Gi0/1") OperStatus.Up,
            InterfaceRecord.mk ("Gi0/1") OperStatus.Up]
    ∧ ¬ ([InterfaceRecord.mk ("Gi0/1") OperStatus.Up,
          InterfaceRecord.mk ("Gi0/1") OperStatus.Up].map InterfaceRecord.name).Nodup := by
  exact ⟨by decide, by decide⟩

/-- Claim C8 as amended: the parsers preserve source order without
deduplication — the record names (resp. ids) are exactly the first tokens
(resp. their integer values) of the producing lines, so they are pairwise
unique exactly when those are. -/
theorem claim8_uniqueness (rawI rawV : String) (rs : List InterfaceRecord)
    (vs : List VlanRecord)
    (hI : parseInterfaceBrief rawI = PResult.ok rs)
    (hV : parseVlanBrief rawV = PResult.ok vs) :
    rs.map InterfaceRecord.name = ifaceNamesOf rawI
    ∧ vs.map VlanRecord.id = vlanIdsOf rawV
    ∧ ((ifaceNamesOf rawI).Nodup → (rs.map InterfaceRecord.name).Nodup)
    ∧ ((vlanIdsOf rawV).Nodup → (vs.map VlanRecord.id).Nodup) := by
  have h1 := ifaceGo_names ((pyLines rawI).drop 1) rs hI
  have h2 := vlanGo_ids ((pyLines rawV).drop 1) vs hV
  refine ⟨h1, h2, ?_, ?_⟩
  · intro hn
    rw [h1]
    exact hn
  · intro hn
    rw [h2]
    exact hn

/-- Claim C8 witness: on the section 8 samples the names and ids are unique. -/
theorem claim8_witness :
    ([InterfaceRecord.mk ("Gi0/1") OperStatus.Up,
        InterfaceRecord.mk ("Gi0/2") OperStatus.Unknown].map InterfaceRecord.name).Nodup
    ∧ ([VlanRecord.mk 1 ("default"), VlanRecord.mk 10 ("Servers")].map VlanRecord.id).Nodup := by
  have h := claim8_uniqueness sampleIfaceText sampleVlanText
    [InterfaceRecord.mk ("Gi0/1") OperStatus.Up,
      InterfaceRecord.mk ("Gi0/2") OperStatus.Unknown]
    [VlanRecord.mk 1 ("default"), VlanRecord.mk 10 ("Servers")]
    (by decide) (by decide)
  exact ⟨h.2.2.1 (by decide), h.2.2.2 (by decide)⟩

/-- Claim C9: if some post-header line's only whitespace token is all digits,
the VLAN parse raises an index error on the missing name token instead of
skipping the line or returning a record. -/
theorem claim9_vlan_index_error (raw : String)
    (h : ((pyLines raw).drop 1).any vlanLineBad = true) :
    parseVlanBrief raw = PResult.indexError := by
  unfold parseVlanBrief
  exact vlanGo_bad _ h

/-- Claim C9 witness: a concrete vlan-brief text with a lone-digit line. -/
theorem claim9_witness :
    parseVlanBrief ("VLAN Name  Status  Ports\n5\n") = PResult.indexError :=
  claim9_vlan_index_error ("VLAN Name  Status  Ports\n5\n") (by decide)

/-- Claim C10: the comment filter tests each stored line raw, before any
stripping — a line whose "!" follows leading whitespace is kept (first
conjunct) — and the replayed batch consists of the stripped forms of exactly
those lines that do not begin with "!" at their first character (second and
third conjuncts). -/
theorem claim10_restore_filter :
    restoreBatch ("  ! kept\n! dropped\nend\n") = ["! kept", "end"]
    ∧ (∀ content l, l ∈ readlines content → startswithBang l = false →
        pyStrip l ∈ restoreBatch content)
    ∧ ∀ content b, b ∈ restoreBatch content →
        ∃ l, l ∈ readlines content ∧ startswithBang l = false ∧ b = pyStrip l := by
  refine ⟨by decide, ?_, ?_⟩
  · intro content l hmem hbang
    unfold restoreBatch
    exact List.mem_map_of_mem pyStrip (List.mem_filter.mpr ⟨hmem, by simp [hbang]⟩)
  · intro content b hb
    unfold restoreBatch at hb
    rcases List.mem_map.mp hb with ⟨l, hl, rfl⟩
    rcases List.mem_filter.mp hl with ⟨hmem, hcond⟩
    exact ⟨l, hmem, by simpa using hcond, rfl⟩

/-- Claim C10 witness: a concrete non-comment line's stripped form is in the
batch. -/
theorem claim10_witness :
    pyStrip ("hostname SW1\n") ∈ restoreBatch ("hostname SW1\n!\n") :=
  claim10_restore_filter.2.1 ("hostname SW1\n!\n") ("hostname SW1\n") (by decide) (by decide)
